import Mathlib

/-!
Shallow embedding of the report-generation pipeline of
`jira-campaign-tool/campaign_updates.py`.

Cell values are modelled by `CellVal` (strings and integers); pandas
dataframes by `DataFrame` (a column-name list plus rows of cells).
Pure functions below are translated from the source functions
`process_campaigns`, `add_autofilter` and `create_formatted_workbook`;
library behaviour of pandas/openpyxl that the source relies on is
modelled where the claims depend on it:

* `Series.str` raises `AttributeError` when the accessed column has a
  numeric dtype (every value numeric and the column nonempty); on an
  object column `.str.lower()` maps non-strings to NaN, which compares
  unequal to `"campaign"`.
* `Series.value_counts()` returns the distinct values (in order of first
  appearance) with their counts, sorted by descending count with a
  stable sort, so ties keep first-seen order.
* `DataFrame.sort_values` on an object column raises `TypeError` when
  the values are not mutually comparable (a mix of strings and numbers);
  it succeeds when all key values are strings or all are numbers.
* `openpyxl.utils.get_column_letter` converts a 1-based column number to
  spreadsheet letters (bijective base 26).
-/

namespace CampaignUpdates

/-- A loosely typed spreadsheet cell value: a string or a number. -/
inductive CellVal where
  | str (s : String)
  | num (n : Int)
  deriving DecidableEq

/-- Whether a cell value is a string. -/
def CellVal.isStr : CellVal → Bool
  | .str _ => true
  | .num _ => false

/-- Python `str(value)` on a cell value. -/
def strOfVal : CellVal → String
  | .str s => s
  | .num n => toString n

/-- Python `str.lower()` (ASCII). -/
def lowerStr (s : String) : String := String.mk (s.data.map Char.toLower)

/-- Python `col.replace("_", " ")`: the pattern is a single character,
so the replacement is a character-wise map. -/
def replaceUnderscores (s : String) : String :=
  String.mk (s.data.map (fun c => if c == '_' then ' ' else c))

/-- One step of Python `str.title()`: uppercase a character whose
predecessor is not alphabetic, lowercase the others. -/
def pyTitleAux : List Char → Bool → List Char
  | [], _ => []
  | c :: rest, prevAlpha =>
      (if prevAlpha then c.toLower else c.toUpper) :: pyTitleAux rest c.isAlpha

/-- Python `str.title()` (ASCII). -/
def pyTitle (s : String) : String := String.mk (pyTitleAux s.data false)

/-- Does `needle` occur at the head of the second list? -/
def charsLead : List Char → List Char → Bool
  | [], _ => true
  | _ :: _, [] => false
  | a :: as, b :: bs => a == b && charsLead as bs

/-- Does `needle` occur anywhere in the haystack? -/
def charsHaveSub (needle : List Char) : List Char → Bool
  | [] => charsLead needle []
  | c :: rest => charsLead needle (c :: rest) || charsHaveSub needle rest

/-- Python `needle in hay` on strings. -/
def strHasSub (hay needle : String) : Bool := charsHaveSub needle.data hay.data

/-- Lexicographic strict comparison of character lists by code point,
the ordering Python uses on strings. -/
def charsLt : List Char → List Char → Bool
  | [], [] => false
  | [], _ :: _ => true
  | _ :: _, [] => false
  | a :: as, b :: bs => decide (a.toNat < b.toNat) || (a == b && charsLt as bs)

/-- Python `a <= b` on strings (total: the complement of strict
greater-than). -/
def strLeB (a b : String) : Bool := !(charsLt b.data a.data)

/-- A pandas dataframe: discovered column names plus rows of cells.
Invariant maintained by every operation here: each row has one cell per
column, in column order. -/
structure DataFrame where
  cols : List String
  rows : List (List CellVal)
  deriving DecidableEq

/-- The cell of `row` under column `c` (columns listed in `cols`). -/
def getCell (cols : List String) (row : List CellVal) (c : String) : CellVal :=
  row.getD (cols.findIdx (· == c)) (CellVal.str "")

/-- All values of column `c`, in row order (pandas `df[c]`). -/
def colVals (df : DataFrame) (c : String) : List CellVal :=
  df.rows.map (fun r => getCell df.cols r c)

/-- The dict comprehension `{col.lower(): col for col in df.columns}`
looked up at `key`: the LAST column whose lowercasing is `key`, since a
later dict assignment overwrites an earlier one. -/
def lowerColMap (cols : List String) (key : String) : Option String :=
  cols.foldl (fun acc c => if lowerStr c == key then some c else acc) none

/-- The issue-type column aliases, in the declared order of
`campaign_updates.py` line 124. -/
def issueTypeAliases : List String := ["issue type", "issuetype", "type"]

/-- First alias (in alias order) that matches a column, yielding the
original name of that column. -/
def findAliasCol (cols : List String) : List String → Option String
  | [] => none
  | a :: rest =>
      match lowerColMap cols a with
      | some c => some c
      | none => findAliasCol cols rest

/-- The issue-type column located by `process_campaigns` (lines 122-127). -/
def findIssueTypeCol (df : DataFrame) : Option String :=
  findAliasCol df.cols issueTypeAliases

/-- The row predicate of line 131:
`df[issue_type_col].str.lower() == "campaign"`.  A non-string value is
mapped to NaN by `.str.lower()` and NaN compares unequal. -/
def rowIsCampaign (cols : List String) (c : String) (row : List CellVal) : Bool :=
  match getCell cols row c with
  | .str s => lowerStr s == "campaign"
  | .num _ => false

/-- pandas infers a numeric dtype for a nonempty column with no string
values; `.str` on such a column raises `AttributeError`. -/
def numericDtype (vals : List CellVal) : Bool :=
  !vals.isEmpty && vals.all (fun v => !v.isStr)

/-- `process_campaigns` (lines 117-138): locate the issue-type column,
filter the campaign rows (or fail open when no column matches), and
return the pair (campaigns_df, df).  The `Except.error` branch models
the `AttributeError` that `.str` raises on a numeric-dtype column. -/
def process_campaigns (df : DataFrame) : Except String (DataFrame × DataFrame) :=
  match findIssueTypeCol df with
  | some c =>
      if numericDtype (colVals df c) then
        Except.error "AttributeError: Can only use .str accessor with string values!"
      else
        Except.ok (⟨df.cols, df.rows.filter (rowIsCampaign df.cols c)⟩, df)
  | none => Except.ok (df, df)

instance {ε α : Type} [DecidableEq ε] [DecidableEq α] : DecidableEq (Except ε α)
  | .error a, .error b =>
      if h : a = b then isTrue (by rw [h]) else isFalse (fun c => h (Except.error.inj c))
  | .error _, .ok _ => isFalse (fun h => Except.noConfusion h)
  | .ok _, .error _ => isFalse (fun h => Except.noConfusion h)
  | .ok a, .ok b =>
      if h : a = b then isTrue (by rw [h]) else isFalse (fun c => h (Except.ok.inj c))

/-- `openpyxl.utils.get_column_letter`, with the first argument as fuel
(the quotient strictly decreases, so `n` steps always suffice). -/
def columnLetterAux : Nat → Nat → String
  | 0, _ => ""
  | _ + 1, 0 => ""
  | fuel + 1, n + 1 => columnLetterAux fuel ((n + 1 - 1) / 26) ++ String.singleton (Char.ofNat (65 + (n + 1 - 1) % 26))

/-- 1-based column number to spreadsheet column letters. -/
def get_column_letter (n : Nat) : String := columnLetterAux n n

/-- `add_autofilter` (lines 141-155): `none` models returning without
assigning `auto_filter.ref`; `some s` models `auto_filter.ref = s`. -/
def add_autofilter (df : DataFrame) : Option String :=
  if df.rows.length = 0 then none
  else some ("A1:" ++ get_column_letter df.cols.length ++ toString (df.rows.length + 1))

/-- The display transform of lines 218 and 260:
`col.replace("_", " ").title()`. -/
def renameCol (c : String) : String := pyTitle (replaceUnderscores c)

/-- `df.rename(columns=column_mapping)` for the display transform. -/
def renameDf (df : DataFrame) : DataFrame := ⟨df.cols.map renameCol, df.rows⟩

/-- The status fill colors of lines 163-169, in declaration order
(Python dicts preserve insertion order). -/
def status_colors : List (String × String) :=
  [("done", "C6EFCE"), ("in progress", "FFF2CC"), ("todo", "FCE4D6"), ("blocked", "F8CBAD")]

/-- Python truthiness of a cell value (line 280 `if value`). -/
def isFalsy : CellVal → Bool
  | .str s => s == ""
  | .num n => n == 0

/-- Line 280: `status_key = str(value).lower() if value else ""`. -/
def statusKey (v : CellVal) : String :=
  if isFalsy v then "" else lowerStr (strOfVal v)

/-- Lines 281-284: first color whose key is a substring of the status
key wins; no match yields no fill. -/
def firstMatchFill (key : String) : List (String × String) → Option String
  | [] => none
  | (k, color) :: rest => if strHasSub key k then some color else firstMatchFill key rest

/-- Lines 278-284: the fill applied to the cell at 1-based column
`colIdx` of a details row of length `rowLen` holding value `v`, given
the renamed column names.  Faithful to the guard
`col_idx < len(row) and "status" in display_df.columns[col_idx - 1].lower()`. -/
def statusCellFill (displayCols : List String) (colIdx : Nat) (rowLen : Nat) (v : CellVal) : Option String :=
  if colIdx < rowLen && strHasSub (lowerStr (displayCols.getD (colIdx - 1) "")) "status" then
    firstMatchFill (statusKey v) status_colors
  else none

/-- Line 192-193: the first column case-insensitively named "status". -/
def findStatusCol (df : DataFrame) : Option String :=
  df.cols.find? (fun c => lowerStr c == "status")

/-- The distinct values of a list in order of first appearance (pandas
hash-table insertion order inside `value_counts`). -/
def firstSeen (l : List CellVal) : List CellVal :=
  l.foldl (fun acc v => if v ∈ acc then acc else acc ++ [v]) []

/-- Descending-count comparison used to order a breakdown. -/
def cntGE (p q : CellVal × Nat) : Prop := q.2 ≤ p.2

instance : DecidableRel cntGE := fun p q => Nat.decLe q.2 p.2

instance : IsTotal (CellVal × Nat) cntGE := ⟨fun p q => Nat.le_total q.2 p.2⟩

instance : IsTrans (CellVal × Nat) cntGE := ⟨fun _ _ _ h1 h2 => Nat.le_trans h2 h1⟩

/-- `Series.value_counts()` (line 194): distinct values with their
occurrence counts, sorted by descending count; pandas sorts with a
stable sort, so ties keep first-seen order — modelled by the stable
insertion sort. -/
def valueCounts (l : List CellVal) : List (CellVal × Nat) :=
  List.insertionSort cntGE ((firstSeen l).map (fun v => (v, l.count v)))

/-- The status breakdown appended to the summary when a status column
exists (lines 191-198). -/
def statusBreakdown (df : DataFrame) : List (CellVal × Nat) :=
  match findStatusCol df with
  | some c => valueCounts (colVals df c)
  | none => []

/-- `summary_data` (lines 183-198): the rows of the Summary sheet. -/
def summaryData (now : String) (campaigns_df all_df : DataFrame) : List (List CellVal) :=
  [[CellVal.str "Campaign Update Report", CellVal.str ""],
   [CellVal.str "Generated", CellVal.str now],
   [CellVal.str "", CellVal.str ""],
   [CellVal.str "Total Campaigns", CellVal.num (campaigns_df.rows.length : Int)],
   [CellVal.str "Total Tickets", CellVal.num (all_df.rows.length : Int)]] ++
  (match findStatusCol campaigns_df with
   | some c =>
       [[CellVal.str "", CellVal.str ""],
        [CellVal.str "Campaign Status Breakdown", CellVal.str ""]] ++
       (valueCounts (colVals campaigns_df c)).map (fun p => [p.1, CellVal.num (p.2 : Int)])
   | none => [])

/-- Lines 200-204: the font override of a Summary row — row 1 gets a
bold size-14 font, every other row keeps the default. -/
def summaryRowFont (rowIdx : Nat) : Option (Bool × Nat) :=
  if rowIdx = 1 then some (true, 14) else none

/-- A produced worksheet: name, header labels, data rows, and the
auto-filter range (if one was assigned). -/
structure Sheet where
  name : String
  header : List String
  rows : List (List CellVal)
  autoFilterRef : Option String
  deriving DecidableEq

/-- Line 304: the renamed columns whose name contains "date" or
"created" case-insensitively, in declared column order. -/
def dateColumns (cols : List String) : List String :=
  cols.filter (fun c => strHasSub (lowerStr c) "date" || strHasSub (lowerStr c) "created")

/-- Comparison on cell values used for the timeline sort: numbers by
value, strings lexicographically.  The cross-kind cases are never
reached under `timelineSortOk` (pandas raises there); they are given a
fixed orientation (numbers before strings) so that the relation is a
total preorder. -/
def valLeB : CellVal → CellVal → Bool
  | .num a, .num b => decide (a ≤ b)
  | .num _, .str _ => true
  | .str _, .num _ => false
  | .str a, .str b => strLeB a b

/-- Row comparison by the values of column `c`. -/
def rowLe (cols : List String) (c : String) (r1 r2 : List CellVal) : Prop :=
  valLeB (getCell cols r1 c) (getCell cols r2 c) = true

instance (cols : List String) (c : String) : DecidableRel (rowLe cols c) :=
  fun _ _ => Bool.decEq _ _

/-- `sort_values` succeeds exactly when the values of the key column are all
strings or all numbers (a mix raises `TypeError`, line 310-313). -/
def timelineSortOk (df : DataFrame) (c : String) : Bool :=
  (colVals df c).all CellVal.isStr || (colVals df c).all (fun v => !v.isStr)

/-- Lines 308-313: the timeline rows — the details rows sorted
ascending by the first date-like column when the sort succeeds, the
original row order when `sort_values` raises. -/
def timelineRows (df : DataFrame) (c : String) : List (List CellVal) :=
  if timelineSortOk df c then List.insertionSort (rowLe df.cols c) df.rows
  else df.rows

/-- The fixed exclusion list of line 214. -/
def excludedRawCols : List String := ["project id", "project url"]

/-- Line 213-214: the raw-data fields — every column not excluded. -/
def rawFields (all_df : DataFrame) : List String :=
  all_df.cols.filter (fun c => !(excludedRawCols.contains (lowerStr c)))

/-- `df[fields]`: keep the named columns, in the given order. -/
def selectCols (df : DataFrame) (keep : List String) : DataFrame :=
  ⟨keep, df.rows.map (fun r => keep.map (fun c => getCell df.cols r c))⟩

/-- `create_formatted_workbook` (lines 158-350), as the ordered list of
produced sheets with their values and auto-filter ranges.  `now` is the
generation timestamp written into the Summary sheet (the `config`
argument is never read inside the source function, so it is omitted). -/
def create_formatted_workbook (now : String) (campaigns_df all_df : DataFrame) : List Sheet :=
  let ws_summary : Sheet := ⟨"Summary", [], summaryData now campaigns_df all_df, none⟩
  let raw_display := renameDf (selectCols all_df (rawFields all_df))
  let ws_raw : Sheet := ⟨"Raw Data", raw_display.cols, raw_display.rows, add_autofilter raw_display⟩
  let display_df := renameDf campaigns_df
  let ws_details : Sheet := ⟨"Campaign Details", display_df.cols, display_df.rows, add_autofilter display_df⟩
  [ws_summary, ws_raw, ws_details] ++
  (match dateColumns display_df.cols with
   | [] => []
   | c :: _ =>
       let timeline_df : DataFrame := ⟨display_df.cols, timelineRows display_df c⟩
       [⟨"Timeline", timeline_df.cols, timeline_df.rows, add_autofilter timeline_df⟩])

/-- The terminal outcome of a run, as distinguished by `main`
(lines 372-385): a no-op success exit without writing a file, a written
workbook, or a fatal error. -/
inductive RunOutcome where
  | noop
  | wrote (wb : List Sheet)
  | failed (msg : String)
  deriving DecidableEq

/-- `main` after the import stage (lines 372-383): classify, exit 0
without writing when no campaign rows were found, otherwise build the
workbook. -/
def runPipeline (now : String) (df : DataFrame) : RunOutcome :=
  match process_campaigns df with
  | Except.error e => RunOutcome.failed e
  | Except.ok (campaigns_df, all_df) =>
      if campaigns_df.rows.length = 0 then RunOutcome.noop
      else RunOutcome.wrote (create_formatted_workbook now campaigns_df all_df)

/-- Replace the Generated-timestamp row (row index 1) of the Summary
sheet by a fixed placeholder, leaving everything else intact. -/
def maskGeneratedRow (wb : List Sheet) : List Sheet :=
  wb.map (fun s =>
    if s.name = "Summary" then ⟨s.name, s.header, s.rows.set 1 [], s.autoFilterRef⟩ else s)

/-- Example export: 3 campaign rows with statuses Done, Done, In Progress. -/
def exCampaigns : DataFrame :=
  ⟨["Key", "Status"],
   [[CellVal.str "K-1", CellVal.str "Done"],
    [CellVal.str "K-2", CellVal.str "Done"],
    [CellVal.str "K-3", CellVal.str "In Progress"]]⟩

/-- Example export: the full 5-row dataset behind `exCampaigns`. -/
def exAll : DataFrame :=
  ⟨["Key", "Status"],
   [[CellVal.str "K-1", CellVal.str "Done"],
    [CellVal.str "K-2", CellVal.str "Done"],
    [CellVal.str "K-3", CellVal.str "In Progress"],
    [CellVal.str "K-4", CellVal.str "Todo"],
    [CellVal.str "K-5", CellVal.str "Done"]]⟩

/-- Example details dataframe with a date-like column, sortable. -/
def exTimeline : DataFrame :=
  ⟨["Due Date", "Key"],
   [[CellVal.str "2026-02-01", CellVal.str "B"],
    [CellVal.str "2026-01-01", CellVal.str "A"]]⟩

/-- Example export whose issue-type column contains string values. -/
def exTyped : DataFrame :=
  ⟨["Issue Type", "Status"],
   [[CellVal.str "Campaign", CellVal.str "Done"],
    [CellVal.str "Bug", CellVal.str "Todo"],
    [CellVal.str "CAMPAIGN", CellVal.str "Todo"]]⟩

/-- Example export with a recognized issue-type column but no campaign
rows. -/
def exNoCampaigns : DataFrame :=
  ⟨["Type", "Status"], [[CellVal.str "Bug", CellVal.str "Done"]]⟩

/-!  Helper lemmas. -/

theorem char_toNat_inj {a b : Char} (h : a.toNat = b.toNat) : a = b := by
  have h2 := congrArg Char.ofNat h
  rwa [Char.ofNat_toNat, Char.ofNat_toNat] at h2

theorem charsLt_irrefl : ∀ l : List Char, charsLt l l = false
  | [] => rfl
  | a :: as => by
    have ih := charsLt_irrefl as
    simp [charsLt, ih]

theorem charsLt_trans : ∀ (a b c : List Char),
    charsLt a b = true → charsLt b c = true → charsLt a c = true
  | [], [], _, h1, _ => by simp [charsLt] at h1
  | [], _ :: _, [], _, h2 => by simp [charsLt] at h2
  | [], _ :: _, _ :: _, _, _ => by simp [charsLt]
  | _ :: _, [], _, h1, _ => by simp [charsLt] at h1
  | _ :: _, _ :: _, [], _, h2 => by simp [charsLt] at h2
  | a :: as, b :: bs, c :: cs, h1, h2 => by
    simp only [charsLt, Bool.or_eq_true, Bool.and_eq_true, decide_eq_true_eq,
      beq_iff_eq] at h1 h2 ⊢
    rcases h1 with h1 | ⟨rfl, h1⟩
    · rcases h2 with h2 | ⟨rfl, h2⟩
      · exact Or.inl (Nat.lt_trans h1 h2)
      · exact Or.inl h1
    · rcases h2 with h2 | ⟨rfl, h2⟩
      · exact Or.inl h2
      · exact Or.inr ⟨rfl, charsLt_trans as bs cs h1 h2⟩

theorem charsLt_eq_of_not_lt : ∀ (a b : List Char),
    charsLt a b = false → charsLt b a = false → a = b
  | [], [], _, _ => rfl
  | [], _ :: _, h1, _ => by simp [charsLt] at h1
  | _ :: _, [], _, h2 => by simp [charsLt] at h2
  | a :: as, b :: bs, h1, h2 => by
    simp only [charsLt, Bool.or_eq_false_iff, Bool.and_eq_false_iff,
      decide_eq_false_iff_not, beq_iff_eq, beq_eq_false_iff_ne, ne_eq] at h1 h2
    have hab : a = b := char_toNat_inj (by omega)
    subst hab
    rcases h1.2 with h | h
    · exact absurd rfl h
    · rcases h2.2 with h2c | h2c
      · exact absurd rfl h2c
      · exact congrArg (a :: ·) (charsLt_eq_of_not_lt as bs h h2c)

theorem strLeB_total (a b : String) : (strLeB a b || strLeB b a) = true := by
  rw [strLeB, strLeB]
  cases h1 : charsLt b.data a.data
  · rfl
  · cases h2 : charsLt a.data b.data
    · rfl
    · have := charsLt_trans _ _ _ h1 h2
      rw [charsLt_irrefl] at this
      exact absurd this (by simp)

theorem strLeB_trans (a b c : String) (h1 : strLeB a b = true) (h2 : strLeB b c = true) :
    strLeB a c = true := by
  rw [strLeB] at h1 h2 ⊢
  simp only [Bool.not_eq_true'] at h1 h2 ⊢
  cases hca : charsLt c.data a.data
  · rfl
  · exfalso
    cases hab : charsLt a.data b.data
    · have hba : a.data = b.data := charsLt_eq_of_not_lt _ _ hab h1
      rw [hba] at hca
      rw [hca] at h2
      simp at h2
    · have hcb := charsLt_trans _ _ _ hca hab
      rw [hcb] at h2
      simp at h2

theorem valLeB_total (v w : CellVal) : (valLeB v w || valLeB w v) = true := by
  cases v with
  | str a =>
    cases w with
    | str b => exact strLeB_total a b
    | num b => simp [valLeB]
  | num a =>
    cases w with
    | str b => simp [valLeB]
    | num b =>
      simp only [valLeB, Bool.or_eq_true, decide_eq_true_eq]
      omega

theorem valLeB_trans (u v w : CellVal) (h1 : valLeB u v = true) (h2 : valLeB v w = true) :
    valLeB u w = true := by
  cases u with
  | str a =>
    cases v with
    | str b =>
      cases w with
      | str c => exact strLeB_trans a b c h1 h2
      | num c => simp [valLeB] at h2
    | num b => simp [valLeB] at h1
  | num a =>
    cases w with
    | str c => simp [valLeB]
    | num c =>
      cases v with
      | str b => simp [valLeB] at h2
      | num b =>
        simp only [valLeB, decide_eq_true_eq] at h1 h2 ⊢
        omega

theorem rowLe_total (cols : List String) (c : String) (r1 r2 : List CellVal) :
    rowLe cols c r1 r2 ∨ rowLe cols c r2 r1 := by
  have h := valLeB_total (getCell cols r1 c) (getCell cols r2 c)
  rw [Bool.or_eq_true] at h
  exact h

theorem rowLe_trans (cols : List String) (c : String) (r1 r2 r3 : List CellVal)
    (h1 : rowLe cols c r1 r2) (h2 : rowLe cols c r2 r3) : rowLe cols c r1 r3 :=
  valLeB_trans _ _ _ h1 h2

theorem mem_firstSeen_aux (l : List CellVal) : ∀ (acc : List CellVal) (x : CellVal),
    (x ∈ l.foldl (fun acc v => if v ∈ acc then acc else acc ++ [v]) acc) ↔ x ∈ acc ∨ x ∈ l := by
  induction l with
  | nil => intro acc x; simp
  | cons v rest ih =>
    intro acc x
    rw [List.foldl_cons, ih]
    by_cases hv : v ∈ acc
    · simp only [if_pos hv, List.mem_cons]
      constructor
      · rintro (h | h)
        · exact Or.inl h
        · exact Or.inr (Or.inr h)
      · rintro (h | rfl | h)
        · exact Or.inl h
        · exact Or.inl hv
        · exact Or.inr h
    · simp only [if_neg hv, List.mem_append, List.mem_singleton, List.mem_cons]
      tauto

theorem mem_firstSeen (l : List CellVal) (x : CellVal) : x ∈ firstSeen l ↔ x ∈ l := by
  rw [firstSeen, mem_firstSeen_aux]
  simp

theorem numericDtype_false (df : DataFrame) (c : String)
    (hok : df.rows = [] ∨ ∃ r ∈ df.rows, (getCell df.cols r c).isStr = true) :
    numericDtype (colVals df c) = false := by
  rcases hok with hnil | ⟨r, hr, hstr⟩
  · simp [numericDtype, colVals, hnil]
  · have hmem : getCell df.cols r c ∈ colVals df c := List.mem_map_of_mem _ hr
    cases hnd : numericDtype (colVals df c) with
    | false => rfl
    | true =>
      simp only [numericDtype, Bool.and_eq_true, List.all_eq_true] at hnd
      have h2 := hnd.2 _ hmem
      rw [hstr] at h2
      exact absurd h2 (by simp)

/-!  Claim theorems. -/

/-- C1 counterexample: a Dataset whose issue-type column ("Issue Type")
exists but holds only numeric values.  The claim says
`process_campaigns` returns the (empty) set of matching rows as
RelevantSubset; instead `df[col].str` raises `AttributeError` because
pandas infers a numeric dtype, so nothing is returned at all. -/
theorem C1_counterexample :
    process_campaigns ⟨["Issue Type"], [[CellVal.num 5]]⟩ =
      Except.error "AttributeError: Can only use .str accessor with string values!" := by
  decide

/-- C1 (amended): whenever the located issue-type column is empty or
holds at least one string value (so that `.str` does not raise),
`process_campaigns` returns as RelevantSubset exactly the rows whose
issue-type value is a string that lowercases to "campaign"; when no
alias matches any column, the RelevantSubset is the full source
Dataset (fail-open). -/
theorem C1_amended_classifier (df : DataFrame) :
    (∀ c, findIssueTypeCol df = some c →
      df.rows = [] ∨ (∃ r ∈ df.rows, (getCell df.cols r c).isStr = true) →
      process_campaigns df =
        Except.ok (⟨df.cols, df.rows.filter (rowIsCampaign df.cols c)⟩, df)) ∧
    (findIssueTypeCol df = none → process_campaigns df = Except.ok (df, df)) := by
  constructor
  · intro c hc hok
    have hnd := numericDtype_false df c hok
    simp [process_campaigns, hc, hnd]
  · intro hc
    simp [process_campaigns, hc]

/-- C1 witness: the amended claim applied to a concrete export with a
string-valued "Issue Type" column; exactly the two rows whose value
lowercases to "campaign" survive. -/
theorem C1_witness :
    findIssueTypeCol exTyped = some "Issue Type" ∧
    process_campaigns exTyped =
      Except.ok (⟨["Issue Type", "Status"],
        [[CellVal.str "Campaign", CellVal.str "Done"],
         [CellVal.str "CAMPAIGN", CellVal.str "Todo"]]⟩, exTyped) := by
  refine ⟨by decide, ?_⟩
  have h := (C1_amended_classifier exTyped).1 "Issue Type" (by decide) (by decide)
  rw [h]
  decide

/-- C8 counterexample: the Classifier does have a failure mode — on a
Dataset whose "Type" column holds only numbers, `process_campaigns`
raises instead of returning an empty RelevantSubset. -/
theorem C8_counterexample :
    process_campaigns ⟨["Type"], [[CellVal.num 1], [CellVal.num 2]]⟩ =
      Except.error "AttributeError: Can only use .str accessor with string values!" := by
  decide

/-- C8 (amended): `process_campaigns` returns normally for every
Dataset whose located issue-type column is empty or holds at least one
string value (the `.str` accessor only raises on a numeric-dtype
column); and when no row matches the campaign predicate the result is
the empty RelevantSubset as a valid non-error value. -/
theorem C8_amended_no_failure (df : DataFrame)
    (h : ∀ c, findIssueTypeCol df = some c →
      df.rows = [] ∨ ∃ r ∈ df.rows, (getCell df.cols r c).isStr = true) :
    (∃ p, process_campaigns df = Except.ok p) ∧
    (∀ c, findIssueTypeCol df = some c →
      (∀ r ∈ df.rows, rowIsCampaign df.cols c r = false) →
      process_campaigns df = Except.ok (⟨df.cols, []⟩, df)) := by
  constructor
  · cases hc : findIssueTypeCol df with
    | none => exact ⟨(df, df), by simp [process_campaigns, hc]⟩
    | some c =>
      have hnd := numericDtype_false df c (h c hc)
      exact ⟨(⟨df.cols, df.rows.filter (rowIsCampaign df.cols c)⟩, df),
        by simp [process_campaigns, hc, hnd]⟩
  · intro c hc hnone
    have hnd := numericDtype_false df c (h c hc)
    have hfil : df.rows.filter (rowIsCampaign df.cols c) = [] := by
      rw [List.filter_eq_nil_iff]
      intro r hr
      rw [hnone r hr]
      simp
    simp [process_campaigns, hc, hnd, hfil]

/-- C8 witness: the amended claim applied to a concrete export with a
string-valued "Type" column and no campaign rows: the classifier
returns normally with an empty RelevantSubset. -/
theorem C8_witness :
    findIssueTypeCol exNoCampaigns = some "Type" ∧
    process_campaigns exNoCampaigns = Except.ok (⟨["Type", "Status"], []⟩, exNoCampaigns) :=
  ⟨by decide,
   (C8_amended_no_failure exNoCampaigns (by decide)).2 "Type" (by decide) (by decide)⟩

/-- C6: whenever classification succeeds and the RelevantSubset has
zero rows, the run terminates with the no-op outcome — modelling the
`sys.exit(0)` at line 376, reached before `create_formatted_workbook`,
so no output file is written and no error status is raised. -/
theorem C6_empty_noop (now : String) (df campaigns_df all_df : DataFrame)
    (h : process_campaigns df = Except.ok (campaigns_df, all_df))
    (hempty : campaigns_df.rows = []) :
    runPipeline now df = RunOutcome.noop := by
  simp [runPipeline, h, hempty]

/-- C6 witness: a concrete export with one non-campaign row yields the
no-op outcome. -/
theorem C6_witness :
    process_campaigns exNoCampaigns = Except.ok (⟨["Type", "Status"], []⟩, exNoCampaigns) ∧
    runPipeline "2026-10-12 09:00:00" exNoCampaigns = RunOutcome.noop :=
  ⟨by decide,
   C6_empty_noop "2026-10-12 09:00:00" exNoCampaigns ⟨["Type", "Status"], []⟩ exNoCampaigns
     (by decide) rfl⟩

/-- C3: evaluation of the status-fill rule of lines 278-284.  The
claim promises the first matching fill for every cell of a
status-bearing column, and no fill where no key matches; the code guard
guard `col_idx < len(row)` silently excludes the LAST column, so a
status column in final position (first two conjuncts) receives no fill
even for the value "Done".  For non-final status columns the claimed
behaviour holds: "In Progress - QA Review" gets the "in progress" fill
FFF2CC (first match in declaration order) and "Cancelled" gets none. -/
theorem C3_status_fill_eval :
    statusCellFill ["Status"] 1 1 (CellVal.str "Done") = none ∧
    statusCellFill ["Key", "Status"] 2 2 (CellVal.str "Done") = none ∧
    statusCellFill ["Status", "Key"] 1 2 (CellVal.str "Done") = some "C6EFCE" ∧
    statusCellFill ["Status", "Key"] 1 2 (CellVal.str "In Progress - QA Review") = some "FFF2CC" ∧
    statusCellFill ["Status", "Key"] 1 2 (CellVal.str "Cancelled") = none ∧
    firstMatchFill (statusKey (CellVal.str "In Progress - QA Review")) status_colors = some "FFF2CC" ∧
    firstMatchFill (statusKey (CellVal.str "Cancelled")) status_colors = none := by
  decide

/-- C4: when the RelevantSubset has a column case-insensitively named
"status", the breakdown maps each distinct status value to its
occurrence count, is sorted by descending count, and — being a stable
sort over the first-seen distinct values — preserves first-encounter
order among equal counts; on the statuses
[Done, Done, In Progress, Todo, Done] it yields
[(Done,3), (In Progress,1), (Todo,1)]. -/
theorem C4_status_breakdown (df : DataFrame) (c : String)
    (h : findStatusCol df = some c) :
    statusBreakdown df = valueCounts (colVals df c) ∧
    List.Sorted cntGE (valueCounts (colVals df c)) ∧
    (valueCounts (colVals df c)).Perm
      ((firstSeen (colVals df c)).map (fun v => (v, (colVals df c).count v))) ∧
    (∀ p, p ∈ valueCounts (colVals df c) → p.2 = (colVals df c).count p.1) ∧
    (∀ v, (∃ n, (v, n) ∈ valueCounts (colVals df c)) ↔ v ∈ colVals df c) ∧
    valueCounts [CellVal.str "Done", CellVal.str "Done", CellVal.str "In Progress",
        CellVal.str "Todo", CellVal.str "Done"] =
      [(CellVal.str "Done", 3), (CellVal.str "In Progress", 1), (CellVal.str "Todo", 1)] := by
  refine ⟨by simp [statusBreakdown, h], List.sorted_insertionSort _ _,
    List.perm_insertionSort _ _, ?_, ?_, by decide⟩
  · intro p hp
    rw [valueCounts, List.mem_insertionSort] at hp
    rcases List.mem_map.mp hp with ⟨v, _, rfl⟩
    rfl
  · intro v
    constructor
    · rintro ⟨n, hn⟩
      rw [valueCounts, List.mem_insertionSort] at hn
      rcases List.mem_map.mp hn with ⟨w, hw, heq⟩
      have hv : w = v := congrArg Prod.fst heq
      rw [hv] at hw
      exact (mem_firstSeen _ _).mp hw
    · intro hv
      refine ⟨(colVals df c).count v, ?_⟩
      rw [valueCounts, List.mem_insertionSort]
      exact List.mem_map_of_mem _ ((mem_firstSeen _ _).mpr hv)

/-- C4 witness: the breakdown of the example RelevantSubset (statuses
Done, Done, In Progress) is the value-counts table of its Status
column, which evaluates to [(Done,2), (In Progress,1)]. -/
theorem C4_witness :
    findStatusCol exCampaigns = some "Status" ∧
    statusBreakdown exCampaigns = valueCounts (colVals exCampaigns "Status") ∧
    valueCounts (colVals exCampaigns "Status") =
      [(CellVal.str "Done", 2), (CellVal.str "In Progress", 1)] := by
  refine ⟨by decide, (C4_status_breakdown exCampaigns "Status" (by decide)).1, by decide⟩

/-- C2: every produced workbook lists its sheets in the fixed order
Summary, Raw Data, then the relevant-details sheet (titled
"Campaign Details" in the code — what the spec calls Relevant Details),
followed by a Timeline sheet exactly when some renamed column of the
relevant-details sheet contains "date" or "created" case-insensitively;
with no such column the workbook has exactly 3 sheets. -/
theorem C2_sheet_order (now : String) (campaigns_df all_df : DataFrame) :
    ((create_formatted_workbook now campaigns_df all_df).map Sheet.name =
      ["Summary", "Raw Data", "Campaign Details"] ++
        (if dateColumns (renameDf campaigns_df).cols = [] then [] else ["Timeline"])) ∧
    (dateColumns (renameDf campaigns_df).cols = [] ↔
      ∀ col ∈ (renameDf campaigns_df).cols,
        strHasSub (lowerStr col) "date" = false ∧ strHasSub (lowerStr col) "created" = false) ∧
    (dateColumns (renameDf campaigns_df).cols = [] →
      (create_formatted_workbook now campaigns_df all_df).length = 3) := by
  refine ⟨?_, ?_, ?_⟩
  · cases hdc : dateColumns (renameDf campaigns_df).cols with
    | nil => simp [create_formatted_workbook, hdc]
    | cons c rest => simp [create_formatted_workbook, hdc]
  · rw [dateColumns, List.filter_eq_nil_iff]
    constructor
    · intro h col hcol
      have h2 := h col hcol
      simp only [Bool.or_eq_true, not_or, Bool.not_eq_true] at h2
      exact h2
    · intro h col hcol
      have h2 := h col hcol
      simp [h2.1, h2.2]
  · intro h
    simp [create_formatted_workbook, h]

/-- C2 witness: on the example export (columns Key, Status — no
date-like name) the workbook has exactly the three base sheets. -/
theorem C2_witness :
    (create_formatted_workbook "2026-10-12 09:00:00" exCampaigns exAll).map Sheet.name =
      ["Summary", "Raw Data", "Campaign Details"] := by
  have h := (C2_sheet_order "2026-10-12 09:00:00" exCampaigns exAll).1
  rw [h]
  decide

/-- C5 counterexample: the claim orders the Summary rows as title,
timestamp, total DATASET count, then total RELEVANT count; in the
produced summary the relevant count ("Total Campaigns", 3) comes
before the dataset count ("Total Tickets", 5), so the claimed sequence
is not a subsequence of the summary rows. -/
theorem C5_counterexample :
    ¬ ([[CellVal.str "Campaign Update Report", CellVal.str ""],
        [CellVal.str "Generated", CellVal.str "2026-10-12 09:00:00"],
        [CellVal.str "Total Tickets", CellVal.num 5],
        [CellVal.str "Total Campaigns", CellVal.num 3]].Sublist
      (summaryData "2026-10-12 09:00:00" exCampaigns exAll)) := by
  decide

/-- C5 (amended): the Summary rows are, in order: report title,
generation timestamp, a blank spacer, total RELEVANT-SUBSET row count
("Total Campaigns"), total DATASET row count ("Total Tickets"), and —
exactly when a status column exists — a spacer, the breakdown heading,
then the status-breakdown rows; the first row (and only it) is styled
with the bold size-14 title font. -/
theorem C5_amended_summary_layout (now : String) (campaigns_df all_df : DataFrame) :
    ((summaryData now campaigns_df all_df).take 5 =
      [[CellVal.str "Campaign Update Report", CellVal.str ""],
       [CellVal.str "Generated", CellVal.str now],
       [CellVal.str "", CellVal.str ""],
       [CellVal.str "Total Campaigns", CellVal.num (campaigns_df.rows.length : Int)],
       [CellVal.str "Total Tickets", CellVal.num (all_df.rows.length : Int)]]) ∧
    (∀ c, findStatusCol campaigns_df = some c →
      (summaryData now campaigns_df all_df).drop 5 =
        [[CellVal.str "", CellVal.str ""],
         [CellVal.str "Campaign Status Breakdown", CellVal.str ""]] ++
        (valueCounts (colVals campaigns_df c)).map
          (fun p => [p.1, CellVal.num (p.2 : Int)])) ∧
    (findStatusCol campaigns_df = none → (summaryData now campaigns_df all_df).drop 5 = []) ∧
    summaryRowFont 1 = some (true, 14) ∧ summaryRowFont 2 = none := by
  refine ⟨?_, ?_, ?_, rfl, rfl⟩
  · cases h : findStatusCol campaigns_df <;> simp [summaryData, h]
  · intro c h
    simp [summaryData, h]
  · intro h
    simp [summaryData, h]

/-- C5 witness: the amended layout applied to the example export
(status column present): the first five rows instantiated, and the
breakdown section following them. -/
theorem C5_witness :
    ((summaryData "T" exCampaigns exAll).take 5 =
      [[CellVal.str "Campaign Update Report", CellVal.str ""],
       [CellVal.str "Generated", CellVal.str "T"],
       [CellVal.str "", CellVal.str ""],
       [CellVal.str "Total Campaigns", CellVal.num 3],
       [CellVal.str "Total Tickets", CellVal.num 5]]) ∧
    findStatusCol exCampaigns = some "Status" ∧
    (summaryData "T" exCampaigns exAll).drop 5 =
      [[CellVal.str "", CellVal.str ""],
       [CellVal.str "Campaign Status Breakdown", CellVal.str ""]] ++
      (valueCounts (colVals exCampaigns "Status")).map
        (fun p => [p.1, CellVal.num (p.2 : Int)]) := by
  refine ⟨?_, by decide, (C5_amended_summary_layout "T" exCampaigns exAll).2.1 "Status" (by decide)⟩
  have h := (C5_amended_summary_layout "T" exCampaigns exAll).1
  rw [h]
  decide

/-- C7: the Timeline rows are the relevant-details rows sorted
ascending by the first date-like column (in declared column order,
expressed by the head hypothesis) whenever the sort key values are
mutually comparable; when `sort_values` fails the rows keep their
original order, and either way the run continues (the function is
total, the exception is absorbed at lines 310-313). -/
theorem C7_timeline_fail_soft (df : DataFrame) (c : String)
    (_hc : (dateColumns df.cols).head? = some c) :
    (timelineSortOk df c = true →
      (timelineRows df c).Perm df.rows ∧
      List.Sorted (rowLe df.cols c) (timelineRows df c)) ∧
    (timelineSortOk df c = false → timelineRows df c = df.rows) := by
  constructor
  · intro hok
    haveI : IsTotal (List CellVal) (rowLe df.cols c) := ⟨rowLe_total df.cols c⟩
    haveI : IsTrans (List CellVal) (rowLe df.cols c) := ⟨rowLe_trans df.cols c⟩
    constructor
    · rw [timelineRows, if_pos hok]
      exact List.perm_insertionSort _ _
    · rw [timelineRows, if_pos hok]
      exact List.sorted_insertionSort _ _
  · intro hbad
    rw [timelineRows, if_neg]
    rw [hbad]
    simp

/-- C7 witness: on the example details dataframe the first date-like
column is "Due Date", the sort succeeds, and the timeline rows are a
sorted permutation of the original rows. -/
theorem C7_witness :
    (dateColumns exTimeline.cols).head? = some "Due Date" ∧
    timelineSortOk exTimeline "Due Date" = true ∧
    ((timelineRows exTimeline "Due Date").Perm exTimeline.rows ∧
      List.Sorted (rowLe exTimeline.cols "Due Date") (timelineRows exTimeline "Due Date")) :=
  ⟨by decide, by decide,
   (C7_timeline_fail_soft exTimeline "Due Date" (by decide)).1 (by decide)⟩

/-- C9 counterexample: two runs over the byte-identical input dataset
but at different wall-clock instants produce workbooks that differ in
a cell value (the Generated timestamp in the Summary sheet), so the
claim as stated — identical cell values from identical input and
configuration alone — fails. -/
theorem C9_counterexample :
    create_formatted_workbook "2026-10-12 09:00:00" exCampaigns exAll ≠
      create_formatted_workbook "2026-10-12 09:00:01" exCampaigns exAll := by
  decide

/-- C9 (amended): the pipeline is deterministic up to the generation
timestamp — for any two runs over the same dataset and configuration,
the produced workbooks agree on every sheet name, column ordering and
cell value once the Generated-timestamp row of the Summary sheet is
masked out; in particular two runs with equal timestamps produce
identical workbooks. -/
theorem C9_amended_determinism (now1 now2 : String) (campaigns_df all_df : DataFrame) :
    maskGeneratedRow (create_formatted_workbook now1 campaigns_df all_df) =
      maskGeneratedRow (create_formatted_workbook now2 campaigns_df all_df) := by
  simp [maskGeneratedRow, create_formatted_workbook, summaryData]

/-- C9 witness: the masked workbooks of the two differently-timed runs
of the counterexample coincide. -/
theorem C9_witness :
    maskGeneratedRow (create_formatted_workbook "2026-10-12 09:00:00" exCampaigns exAll) =
      maskGeneratedRow (create_formatted_workbook "2026-10-12 09:00:01" exCampaigns exAll) :=
  C9_amended_determinism "2026-10-12 09:00:00" "2026-10-12 09:00:01" exCampaigns exAll

/-- C10: `add_autofilter` assigns no auto-filter range to a sheet
populated from a dataframe with zero data rows (it returns before the
assignment), and assigns the header-and-data range `A1:<col><rows+1>`
otherwise; consequently every sheet of a produced workbook with an
auto-filter has at least one data row. -/
theorem C10_autofilter (df : DataFrame) (now : String) (campaigns_df all_df : DataFrame) :
    (df.rows = [] → add_autofilter df = none) ∧
    (df.rows ≠ [] →
      add_autofilter df =
        some ("A1:" ++ get_column_letter df.cols.length ++ toString (df.rows.length + 1))) ∧
    (∀ s ∈ create_formatted_workbook now campaigns_df all_df,
      s.rows = [] → s.autoFilterRef = none) := by
  refine ⟨?_, ?_, ?_⟩
  · intro h
    simp [add_autofilter, h]
  · intro h
    rw [add_autofilter, if_neg]
    simpa using h
  · intro s hs hrows
    cases hdc : dateColumns (renameDf campaigns_df).cols with
    | nil =>
      simp only [create_formatted_workbook, hdc, List.append_nil, List.mem_cons,
        List.not_mem_nil, or_false] at hs
      rcases hs with rfl | rfl | rfl
      · rfl
      · simp only at hrows
        simp [add_autofilter, hrows]
      · simp only at hrows
        simp [add_autofilter, hrows]
    | cons c rest =>
      simp only [create_formatted_workbook, hdc, List.mem_append, List.mem_cons,
        List.not_mem_nil, or_false] at hs
      rcases hs with (rfl | rfl | rfl) | rfl
      · rfl
      · simp only at hrows
        simp [add_autofilter, hrows]
      · simp only at hrows
        simp [add_autofilter, hrows]
      · simp only at hrows
        simp [add_autofilter, hrows]

/-- C10 witness: a dataframe with no rows gets no auto-filter; the
5-row example dataset gets the full header-and-data range A1:B6. -/
theorem C10_witness :
    add_autofilter ⟨["Type"], []⟩ = none ∧
    add_autofilter exAll = some "A1:B6" := by
  refine ⟨(C10_autofilter ⟨["Type"], []⟩ "T" exCampaigns exAll).1 rfl, ?_⟩
  have h := (C10_autofilter exAll "T" exCampaigns exAll).2.1 (by decide)
  rw [h]
  decide

end CampaignUpdates
